import Mathlib

/-!
Verification of the sequencer/clock core of the Midi-Calculator repository.

The Python sources (src/sequencer/sequencer.py, src/midi/midi_clock.py,
src/midi/device.py) are shallowly embedded below:

* Python dictionaries holding per-channel step grids become total functions
  `Int → Int → Step`.  Every access in the source is range-validated to
  channel ∈ [0,15] and step ∈ [0, max_steps), and the dictionaries always
  carry exactly those keys, so values of the embedding functions outside the
  validated ranges are never observed.
* Python floats are modelled as rationals (`ℚ`); the arithmetic the claims
  depend on (60 / (120 * 4) and multiplications by 0.9 / 0.95 / 0.05) is
  exact in both.
* A method that raises `ValueError` is modelled as returning
  `Except PyError σ`; Python raises before any field assignment in every
  modelled method, so the erroring call leaves the object unchanged, which
  `runOr` makes explicit.
* `random.random()` / `random.choice` / `random.randint` are modelled by an
  oracle `Rng` holding a stream of rationals in [0,1) for `random()` and a
  stream of naturals driving `choice`/`randint`.
-/

/-- One slot of a channel pattern: the dict
`{'active': bool, 'note': int|None, 'velocity': int}` of sequencer.py. -/
structure Step where
  active : Bool
  note : Option Int
  velocity : Int
deriving Repr, DecidableEq

/-- The default slot written by `__init__`, `clear_channel` and
`set_channel_steps`: inactive, no note, velocity 100. -/
def defaultStep : Step := ⟨false, none, 100⟩

/-- Python exceptions raised by the embedded methods. -/
inductive PyError where
  | valueError : String → PyError
deriving Repr, DecidableEq

/-- A note actually handed to `MidiDevice.send_note`: the arguments
`(note, duration, channel, velocity)`. -/
structure NoteEvent where
  note : Int
  duration : ℚ
  channel : Int
  velocity : Int
deriving Repr, DecidableEq

/-- Oracle for the `random` module: `floats` is the stream of values produced
by successive `random.random()` calls (each in [0,1)), `nats` the stream of
values driving `random.choice` (index into the list, modulo its length, which
is how `_randbelow` is consumed) and `random.randint a b` (offset from `a`,
modulo the size of the range). `fpos` / `npos` are the read positions. -/
structure Rng where
  floats : Nat → ℚ
  nats : Nat → Nat
  fpos : Nat
  npos : Nat

/-- `random.random()`: pull the next float draw. -/
def rand_random (r : Rng) : ℚ × Rng :=
  (r.floats r.fpos, { r with fpos := r.fpos + 1 })

/-- `random.choice(l)`: raises `IndexError`-like failure on an empty list,
otherwise returns an element selected by the oracle. -/
def rand_choice {α : Type} (l : List α) (r : Rng) : Except PyError (α × Rng) :=
  match l with
  | [] => .error (.valueError "Cannot choose from an empty sequence")
  | a :: rest =>
      .ok ((a :: rest).get ⟨r.nats r.npos % (a :: rest).length, Nat.mod_lt _ (Nat.succ_pos _)⟩,
        { r with npos := r.npos + 1 })

/-- `random.randint a b` for `a ≤ b`: a value in `[a, b]` selected by the
oracle. -/
def rand_randint (a b : Int) (r : Rng) : Int × Rng :=
  (a + (r.nats r.npos % (b - a + 1).toNat : Nat), { r with npos := r.npos + 1 })

/-- A scale dictionary `{octave: [notes]}` as an association list with
distinct keys, in iteration order. -/
abbrev Scale : Type := List (Int × List Int)

/-- `list(scale_dict.keys())`. -/
def scale_keys (sc : Scale) : List Int := sc.map Prod.fst

/-- `scale_dict[k]` as an optional lookup; the membership test
`k in scale_dict` of the source is exactly `scale_find sc k ≠ none`. -/
def scale_find (sc : Scale) (k : Int) : Option (List Int) :=
  (List.find? (fun p => p.1 = k) sc).map Prod.snd

/-- `min(scale_dict.keys())`: `ValueError` on an empty dict, otherwise the
least key. -/
def scale_min_key (sc : Scale) : Except PyError Int :=
  match scale_keys sc with
  | [] => .error (.valueError "min arg is an empty sequence")
  | k :: ks => .ok (ks.foldl min k)

/-- The mutable state of a `StepSequencer` object (sequencer.py).  The
`midi_device` reference, the two `threading` handles and the `event` field
carry no pattern/timing data and are modelled where needed (the device's
current channel is a parameter of the scale-playback iteration; the thread is
the interleaving system further below). -/
structure SeqState where
  bpm : ℚ
  steps_per_bar : Int
  max_steps : Int
  step_time : ℚ
  running : Bool
  playback_step : Int
  edit_step : Int
  patterns : Int → Int → Step
  channel_lengths : Int → Int
  current_scale : Option Scale
  current_octave : Int
  scale_playback : Bool

/-- `StepSequencer.__init__(midi_device, bpm=120, steps_per_bar=16,
max_steps=64)`: all 16 channels pre-filled with `max_steps` default slots,
all channel lengths equal to `steps_per_bar`. -/
def seq_init (bpm : ℚ) (steps_per_bar : Int) (max_steps : Int) : SeqState :=
  { bpm := bpm
    steps_per_bar := steps_per_bar
    max_steps := max_steps
    step_time := 60 / (bpm * ((steps_per_bar : ℚ) / 4))
    running := false
    playback_step := 0
    edit_step := 0
    patterns := fun _ _ => defaultStep
    channel_lengths := fun _ => steps_per_bar
    current_scale := none
    current_octave := 3
    scale_playback := false }

/-- Python exception semantics for a mutating method: a raise before any
field assignment leaves the object as it was. -/
def runOr (s : SeqState) (r : Except PyError SeqState) : SeqState :=
  match r with
  | .ok s' => s'
  | .error _ => s

/-- `StepSequencer.set_step(channel, step, active, note=None, velocity=100)`. -/
def set_step (s : SeqState) (channel step : Int) (active : Bool)
    (note : Option Int) (velocity : Int) : Except PyError SeqState :=
  if ¬ (0 ≤ channel ∧ channel ≤ 15) then
    .error (.valueError "Channel must be between 0 and 15")
  else if ¬ (0 ≤ step ∧ step < s.max_steps) then
    .error (.valueError "Step must be between 0 and max_steps - 1")
  else if ¬ (∀ n ∈ note, 0 ≤ n ∧ n ≤ 127) then
    .error (.valueError "Note must be between 0 and 127")
  else if ¬ (0 ≤ velocity ∧ velocity ≤ 127) then
    .error (.valueError "Velocity must be between 0 and 127")
  else
    .ok { s with patterns := fun c st =>
            if c = channel ∧ st = step then ⟨active, note, velocity⟩
            else s.patterns c st }

/-- `StepSequencer.get_step(channel, step)`.  The source returns
`self.patterns[channel][step].copy()`; at the value level the copy is the
identity — the aliasing content of the copy is proved on the heap
refinement below. -/
def get_step (s : SeqState) (channel step : Int) : Except PyError Step :=
  if ¬ (0 ≤ channel ∧ channel ≤ 15) then
    .error (.valueError "Channel must be between 0 and 15")
  else if ¬ (0 ≤ step ∧ step < s.max_steps) then
    .error (.valueError "Step must be between 0 and max_steps - 1")
  else
    .ok (s.patterns channel step)

/-- `StepSequencer.clear_channel(channel)`: replaces the channel's dict with
`max_steps` default slots. -/
def clear_channel (s : SeqState) (channel : Int) : Except PyError SeqState :=
  if ¬ (0 ≤ channel ∧ channel ≤ 15) then
    .error (.valueError "Channel must be between 0 and 15")
  else
    .ok { s with patterns := fun c st =>
            if c = channel then defaultStep else s.patterns c st }

/-- `StepSequencer.set_channel_steps(channel, steps)`: records the new
length, keeps slots below it and re-applies the default to slots from the
new length up (the source writes defaults for every index in
`range(max_steps)` that is `≥ steps`; indices outside `[0, max_steps)` are
never read by any accessor). -/
def set_channel_steps (s : SeqState) (channel steps : Int) :
    Except PyError SeqState :=
  if ¬ (0 ≤ channel ∧ channel ≤ 15) then
    .error (.valueError "Channel must be between 0 and 15")
  else if ¬ (1 ≤ steps ∧ steps ≤ s.max_steps) then
    .error (.valueError "Steps must be between 1 and max_steps")
  else
    .ok { s with
          channel_lengths := fun c =>
            if c = channel then steps else s.channel_lengths c
          patterns := fun c st =>
            if c = channel then
              (if st < steps then s.patterns c st else defaultStep)
            else s.patterns c st }

/-- `StepSequencer.set_bpm(bpm)`: recomputes
`step_time = 60 / (bpm * (steps_per_bar / 4))`. -/
def set_bpm (s : SeqState) (bpm : ℚ) : Except PyError SeqState :=
  if bpm ≤ 0 then .error (.valueError "BPM must be greater than 0")
  else .ok { s with bpm := bpm
                    step_time := 60 / (bpm * ((s.steps_per_bar : ℚ) / 4)) }

/-- `StepSequencer.play_step(step)`: the batch of `send_note` calls for one
step — for each channel 0–15 whose slot at `step` is active and has a note,
the arguments `(note, step_time * 0.9, channel, velocity)`. -/
def play_step_list (s : SeqState) (step : Int) : List NoteEvent :=
  (List.range 16).filterMap (fun c =>
    let d := s.patterns (c : Int) step
    if d.active then
      match d.note with
      | some n => some ⟨n, s.step_time * (9 / 10), (c : Int), d.velocity⟩
      | none => none
    else none)

/-- One iteration of the `_run` loop body: play the batch for
`playback_step`, sleep (no state), then advance
`playback_step = (playback_step + 1) % channel_lengths[0]`. -/
def run_iteration (s : SeqState) : SeqState × List NoteEvent :=
  let events := play_step_list s s.playback_step
  let current_length := s.channel_lengths 0
  ({ s with playback_step := (s.playback_step + 1) % current_length }, events)

/-- `n` iterations of the `_run` loop (states only). -/
def iterate_run : Nat → SeqState → SeqState
  | 0, s => s
  | n + 1, s => iterate_run n (run_iteration s).1

/-- `StepSequencer.start()`: sets the running flag and spawns the loop
thread; no-op when already running.  The loop's effect on the state is
`run_iteration`; `start` itself touches nothing else. -/
def seq_start (s : SeqState) : SeqState :=
  if ¬ s.running then { s with running := true } else s

/-- `StepSequencer.stop()`: clears the running flag and joins the loop
thread; no state beyond the flag is touched. -/
def seq_stop (s : SeqState) : SeqState :=
  { s with running := false }

/-- The state of a `MidiDevice` object (device.py) as far as the sequencer
core reads it: its currently selected channel. -/
structure MidiDeviceState where
  channel : Int
deriving Repr, DecidableEq

/-- `MidiDevice.set_channel(channel)`. -/
def set_channel (d : MidiDeviceState) (channel : Int) :
    Except PyError MidiDeviceState :=
  if ¬ (0 ≤ channel ∧ channel ≤ 15) then
    .error (.valueError "Channel must be between 0 and 15.")
  else .ok { d with channel := channel }

/-!
## Heap refinement of the pattern store

`set_step` stores a freshly built dict in `self.patterns[channel][step]` and
`get_step` returns `self.patterns[channel][step].copy()`.  To state that the
returned value is a copy and never a live reference, the dicts are given
explicit addresses in a heap: a slot maps to the address of the dict object
it currently holds, building a dict allocates a fresh address, and mutating a
dict is a write at its address.
-/

/-- The Python object heap restricted to step dicts: contents by address, and
the next fresh address. -/
structure DictHeap where
  data : Nat → Step
  next : Nat

/-- The pattern store of a `StepSequencer` with object identity tracked:
`slot c st` is the address of the dict stored at `patterns[c][st]`. -/
structure PatternsH where
  slot : Int → Int → Nat
  heap : DictHeap
  max_steps : Int

/-- The pattern store built by `__init__`: `16 * max_steps` freshly allocated
default dicts. -/
def init_patterns_h (max_steps : Int) : PatternsH :=
  { slot := fun c st => (c * max_steps + st).toNat
    heap := { data := fun _ => defaultStep, next := (16 * max_steps).toNat }
    max_steps := max_steps }

/-- `set_step` on the heap model: same validations as `set_step`; the slot
receives a newly allocated dict holding the given values. -/
def set_step_h (p : PatternsH) (channel step : Int) (active : Bool)
    (note : Option Int) (velocity : Int) : Except PyError PatternsH :=
  if ¬ (0 ≤ channel ∧ channel ≤ 15) then
    .error (.valueError "Channel must be between 0 and 15")
  else if ¬ (0 ≤ step ∧ step < p.max_steps) then
    .error (.valueError "Step must be between 0 and max_steps - 1")
  else if ¬ (∀ n ∈ note, 0 ≤ n ∧ n ≤ 127) then
    .error (.valueError "Note must be between 0 and 127")
  else if ¬ (0 ≤ velocity ∧ velocity ≤ 127) then
    .error (.valueError "Velocity must be between 0 and 127")
  else
    .ok { p with
          slot := fun c st =>
            if c = channel ∧ st = step then p.heap.next else p.slot c st
          heap := { data := fun x =>
                      if x = p.heap.next then ⟨active, note, velocity⟩
                      else p.heap.data x
                    next := p.heap.next + 1 } }

/-- `get_step` on the heap model: same validations; `.copy()` allocates a
fresh dict with the stored slot's contents and returns its address. -/
def get_step_h (p : PatternsH) (channel step : Int) :
    Except PyError (Nat × PatternsH) :=
  if ¬ (0 ≤ channel ∧ channel ≤ 15) then
    .error (.valueError "Channel must be between 0 and 15")
  else if ¬ (0 ≤ step ∧ step < p.max_steps) then
    .error (.valueError "Step must be between 0 and max_steps - 1")
  else
    .ok (p.heap.next,
      { p with heap := { data := fun x =>
                           if x = p.heap.next then
                             p.heap.data (p.slot channel step)
                           else p.heap.data x
                         next := p.heap.next + 1 } })

/-- A caller mutating the dict object at address `a` in place (e.g. writing
fields of the value `get_step` returned). -/
def mutate_dict (p : PatternsH) (a : Nat) (v : Step) : PatternsH :=
  { p with heap := { p.heap with
                     data := fun x => if x = a then v else p.heap.data x } }

/-!
## Randomized pattern generation and scale playback
-/

/-- `range(n)` over Python ints. -/
def int_range (n : Int) : List Int := (List.range n.toNat).map Int.ofNat

/-- The `for step in range(pattern_length)` loop of
`apply_random_pattern_from_scale`, threading the current octave and the
random oracle. -/
def apply_loop (channel : Int) (scale : Scale) (note_chance octave_chance : ℚ) :
    List Int → SeqState → Int → Rng → Except PyError (SeqState × Int × Rng)
  | [], s, octv, r => .ok (s, octv, r)
  | step :: rest, s, octv, r =>
    let xr := rand_random r
    if xr.1 ≤ note_chance then
      match (if yr : (rand_random xr.2).1 ≤ octave_chance then
               rand_choice (scale_keys scale) (rand_random xr.2).2
             else .ok (octv, (rand_random xr.2).2)) with
      | .error e => .error e
      | .ok (octv2, r2) =>
        match scale_find scale octv2 with
        | some notes =>
          match rand_choice notes r2 with
          | .error e => .error e
          | .ok (note, r3) =>
            let vr := rand_randint 80 100 r3
            apply_loop channel scale note_chance octave_chance rest
              { s with patterns := fun c st =>
                  if c = channel ∧ st = step then ⟨true, some note, vr.1⟩
                  else s.patterns c st }
              octv2 vr.2
        | none => apply_loop channel scale note_chance octave_chance rest s octv2 r2
    else apply_loop channel scale note_chance octave_chance rest s octv xr.2

/-- `StepSequencer.apply_random_pattern_from_scale(channel, scale_dict,
note_chance, octave_chance)`: reads the channel's length, clears the channel,
starts from the lowest octave key (`ValueError` on an empty dict) and runs
the per-step loop. -/
def apply_random_pattern_from_scale (s : SeqState) (channel : Int)
    (scale : Scale) (note_chance octave_chance : ℚ) (r : Rng) :
    Except PyError (SeqState × Rng) :=
  let pattern_length := s.channel_lengths channel
  match clear_channel s channel with
  | .error e => .error e
  | .ok s1 =>
    match scale_min_key scale with
    | .error e => .error e
    | .ok octv0 =>
      match apply_loop channel scale note_chance octave_chance
          (int_range pattern_length) s1 octv0 r with
      | .error e => .error e
      | .ok (s2, _, r2) => .ok (s2, r2)

/-- `StepSequencer.start_scale_playback(scale_dict, note_chance,
octave_chance, channel)`: stores the scale snapshot, sets the current octave
to `min(scale_dict.keys())` (`ValueError` on an empty dict, raised after the
snapshot was stored), sets the running flag and spawns the loop thread with
the captured `(note_chance, octave_chance, channel)` arguments. -/
def start_scale_playback (s : SeqState) (scale : Scale)
    (note_chance octave_chance : ℚ) (channel : Int) : SeqState × Option PyError :=
  let s1 := { s with current_scale := some scale }
  match scale_min_key scale with
  | .error e => (s1, some e)
  | .ok m => ({ s1 with current_octave := m, scale_playback := true }, none)

/-- One iteration of the `play_random_scale` while-loop.  `captured_channel`
is the `channel` argument the loop thread was spawned with;
`device_channel` is `self.midi_device.channel` at the moment of the send.
The source passes `channel=self.midi_device.channel` to `send_note`
(sequencer.py line 176), so the emitted event carries `device_channel` and
the captured argument goes unused.  Returns the new state, the advanced
oracle and the emitted note event, if any; `none` with an unchanged state
means the while-guard failed and the loop exits. -/
def play_random_scale_iter (s : SeqState) (note_chance octave_chance : ℚ)
    (captured_channel device_channel : Int) (r : Rng) :
    Except PyError (SeqState × Rng × Option NoteEvent) :=
  if s.scale_playback then
    match s.current_scale with
    | none => .ok (s, r, none)
    | some scale =>
      let xr := rand_random r
      if xr.1 ≤ note_chance then
        match (if yr : (rand_random xr.2).1 ≤ octave_chance then
                 rand_choice (scale_keys scale) (rand_random xr.2).2
               else .ok (s.current_octave, (rand_random xr.2).2)) with
        | .error e => .error e
        | .ok (octv, r2) =>
          let s1 := { s with current_octave := octv }
          match scale_find scale octv with
          | some notes =>
            match rand_choice notes r2 with
            | .error e => .error e
            | .ok (note, r3) =>
              let vr := rand_randint 70 100 r3
              .ok (s1, vr.2,
                some ⟨note, s.step_time * (9 / 10), device_channel, vr.1⟩)
          | none => .ok (s1, r2, none)
      else .ok (s, xr.2, none)
  else .ok (s, r, none)

/-!
## The start/stop interleaving system of the sequencer

`stop()` writes `self.running = False` and then `join()`s the loop thread;
the `_run` loop re-reads the flag at the top of every iteration and each
passing check is followed by exactly one `play_step` note batch.  The two
threads are modelled as an interleaved transition system.
-/

/-- Joint state of the `_run` loop thread and a caller executing `stop()`:
`running` is the shared flag, `loopActive` whether the loop thread has not
yet exited, `mainPhase` the caller's progress through `stop()` (0 = about to
write the flag, 1 = in `join()`, 2 = `stop()` has returned), `batches` the
number of `play_step` note batches emitted so far. -/
structure SeqSys where
  running : Bool
  loopActive : Bool
  mainPhase : Nat
  batches : Nat
deriving Repr, DecidableEq

/-- One step of the loop thread: the `while self.running` check; when it
passes, the iteration body runs (one note batch, the sleep, the step
advance), when it fails the thread exits. -/
def loopStep (s : SeqSys) : SeqSys :=
  if s.loopActive then
    (if s.running then { s with batches := s.batches + 1 }
     else { s with loopActive := false })
  else s

/-- One step of the stopping caller: phase 0 performs the
`self.running = False` write, phase 1 is `join()`, which completes only once
the loop thread has exited. -/
def mainStep (s : SeqSys) : SeqSys :=
  match s.mainPhase with
  | 0 => { s with running := false, mainPhase := 1 }
  | 1 => if s.loopActive then s else { s with mainPhase := 2 }
  | _ => s

/-- Run both threads under an arbitrary interleaving: `true` schedules the
loop thread, `false` the stopping caller. -/
def exec : List Bool → SeqSys → SeqSys
  | [], s => s
  | b :: sched, s => exec sched (if b then loopStep s else mainStep s)

/-- The state right after `start()` returned with `stop()` about to run:
flag set, loop thread spawned, no batch emitted yet. -/
def startState : SeqSys := ⟨true, true, 0, 0⟩

/-!
## MidiClock (midi_clock.py)

The clock's mutable fields, with the two loop variants folded into the
operations that the threads perform: the master thread's entry actions
(transport `start`, counter reset) happen on `clock_start`, and each
`_handle_pulse` call is the `clock_handle_pulse` operation, taken at an
arbitrary wall-clock time (a `ℚ` parameter).  `mido.open_input` is modelled
as succeeding; `active_listener` records the port the most recently opened
slave input listens on. -/
structure ClockState where
  is_master : Bool
  running : Bool
  tempo : ℚ
  pulse_count : Nat
  last_pulse_time : ℚ
  ppqn : Nat
  pulse_interval : ℚ
  sync_source : Option String
  has_thread : Bool
  beats_per_bar : Nat
  current_beat : Nat
  current_bar : Nat
  active_listener : Option String
deriving DecidableEq

/-- `MidiClock.__init__(midi_device)`. -/
def clock_init : ClockState :=
  { is_master := true
    running := false
    tempo := 120
    pulse_count := 0
    last_pulse_time := 0
    ppqn := 24
    pulse_interval := 60 / (120 * 24)
    sync_source := none
    has_thread := false
    beats_per_bar := 4
    current_beat := 0
    current_bar := 0
    active_listener := none }

/-- `MidiClock._handle_beat`. -/
def clock_handle_beat (s : ClockState) : ClockState :=
  let s1 := { s with current_beat := s.current_beat + 1 }
  if s1.current_beat ≥ s1.beats_per_bar then
    { s1 with current_beat := 0, current_bar := s1.current_bar + 1 }
  else s1

/-- `MidiClock._handle_pulse` at wall-clock time `now`.  It is only ever
invoked while the clock is running: from the master loop body, or from the
slave input callback, which returns early otherwise. -/
def clock_handle_pulse (s : ClockState) (now : ℚ) : ClockState :=
  let s1 :=
    if 0 < s.last_pulse_time ∧ s.is_master = false then
      let estimated := 60 / ((now - s.last_pulse_time) * (s.ppqn : ℚ))
      let tempo2 := s.tempo * (95 / 100) + estimated * (5 / 100)
      { s with tempo := tempo2, pulse_interval := 60 / (tempo2 * (s.ppqn : ℚ)) }
    else s
  let s2 := { s1 with last_pulse_time := now, pulse_count := s1.pulse_count + 1 }
  if s2.pulse_count % s2.ppqn = 0 then clock_handle_beat s2 else s2

/-- `MidiClock.start()`: no-op while running; in master mode spawns the
clock thread, whose entry actions reset the counters; in slave mode attaches
a listener to the sync source, if one is set. -/
def clock_start (s : ClockState) : ClockState :=
  if s.running then s
  else
    let s1 := { s with running := true }
    if s1.is_master then
      { s1 with has_thread := true
                pulse_count := 0
                current_beat := 0
                current_bar := 0 }
    else
      match s1.sync_source with
      | none => s1
      | some p => { s1 with active_listener := some p }

/-- `MidiClock.stop()`: returns immediately when not running; otherwise
clears the flag, joins and drops the clock thread, and resets the
pulse/beat/bar counters to zero. -/
def clock_stop (s : ClockState) : ClockState :=
  if ¬ s.running then s
  else { s with running := false
                has_thread := false
                pulse_count := 0
                current_beat := 0
                current_bar := 0 }

/-- `MidiClock.set_tempo(bpm)`: logs and returns on `bpm ≤ 0`, otherwise
stores the tempo and recomputes the pulse interval. -/
def clock_set_tempo (s : ClockState) (bpm : ℚ) : ClockState :=
  if bpm ≤ 0 then s
  else { s with tempo := bpm, pulse_interval := 60 / (bpm * (s.ppqn : ℚ)) }

/-- `MidiClock.set_master(is_master)`. -/
def clock_set_master (s : ClockState) (is_master : Bool) : ClockState :=
  if s.is_master = is_master then s
  else
    let was_running := s.running
    let s1 := if s.running then clock_stop s else s
    let s2 := { s1 with is_master := is_master }
    if was_running then clock_start s2 else s2

/-- The slave input callback's handling of a MIDI `start` message
(`_handle_midi_message`): early return unless running in slave mode,
otherwise the counters are reset. -/
def clock_msg_start (s : ClockState) : ClockState :=
  if s.running = false ∨ s.is_master = true then s
  else { s with pulse_count := 0, current_beat := 0, current_bar := 0 }

/-- `MidiClock.set_sync_source(port_name)` against the available MIDI input
ports `inputs` (`mido.get_input_names()`): returns `False` leaving everything
unchanged when the port is unknown; otherwise stores it and, when a slave
loop is running, performs the stop+restart itself. -/
def clock_set_sync_source (s : ClockState) (inputs : List String)
    (port_name : String) : Bool × ClockState :=
  if port_name ∉ inputs then (false, s)
  else
    let s1 := { s with sync_source := some port_name }
    if s1.running = true ∧ s1.is_master = false then
      (true, clock_start (clock_stop s1))
    else (true, s1)

/-- The clock states reachable through the public operations, with
`_handle_pulse` and the `start`-message handling occurring only while the
clock runs (their callers guarantee exactly that). -/
inductive ClockReachable : ClockState → Prop where
  | init : ClockReachable clock_init
  | start {s} : ClockReachable s → ClockReachable (clock_start s)
  | stop {s} : ClockReachable s → ClockReachable (clock_stop s)
  | pulse {s} (now : ℚ) : ClockReachable s → s.running = true →
      ClockReachable (clock_handle_pulse s now)
  | msg_start {s} : ClockReachable s → ClockReachable (clock_msg_start s)
  | set_tempo {s} (bpm : ℚ) : ClockReachable s →
      ClockReachable (clock_set_tempo s bpm)
  | set_master {s} (b : Bool) : ClockReachable s →
      ClockReachable (clock_set_master s b)
  | set_sync {s} (inputs : List String) (p : String) : ClockReachable s →
      ClockReachable (clock_set_sync_source s inputs p).2

/-!
## Concrete instances used by the witnesses
-/

/-- A sequencer with channel 0 shortened to 4 steps. -/
def c3_state : SeqState :=
  runOr (seq_init 120 16 64) (set_channel_steps (seq_init 120 16 64) 0 4)

/-- A sequencer with an active step at channel 0, index 5. -/
def c2_state : SeqState :=
  runOr (seq_init 120 16 64) (set_step (seq_init 120 16 64) 0 5 true (some 60) 100)

/-- A one-octave scale: octave 3 holding the single note 60. -/
def c5_scale : Scale := [(3, [60])]

/-- A draw sequence whose first `random.random()` value is exactly 0.0 —
a value the Python generator can produce — and 0.5 afterwards. -/
def c5_rng : Rng := ⟨fun i => if i = 0 then 0 else mkRat 1 2, fun _ => 0, 0, 0⟩

/-- A draw sequence of strictly positive `random.random()` values. -/
def c5_rng_pos : Rng := ⟨fun _ => mkRat 1 2, fun _ => 0, 0, 0⟩

/-- A sequencer in scale playback: scale `c5_scale` started with
`note_chance = 1`, `octave_chance = 0` and captured channel 0. -/
def c9_state : SeqState :=
  (start_scale_playback (seq_init 120 16 64) c5_scale 1 0 0).1

/-- The MIDI device after the owning controller selected channel 5 while
scale playback is running. -/
def c9_device : MidiDeviceState :=
  match set_channel ⟨0⟩ 5 with
  | .ok d => d
  | .error _ => ⟨0⟩

/-- The result of one scale-playback iteration from `c9_state` with the
device on channel 5 and first draw 0.0. -/
def c9_result : SeqState × Rng × Option NoteEvent :=
  match play_random_scale_iter c9_state 1 0 0 5 c5_rng with
  | .ok t => t
  | .error _ => (c9_state, c5_rng, none)

/-- A clock that was started as master and has handled one pulse at time 1. -/
def c7_state : ClockState := clock_handle_pulse (clock_start clock_init) 1

/-- A clock running in slave mode. -/
def c8_state : ClockState := { clock_init with is_master := false, running := true }

/-!
## Theorems
-/

lemma runOr_playback (s : SeqState) (r : Except PyError SeqState)
    (h : ∀ s2, r = .ok s2 → s2.playback_step = s.playback_step) :
    (runOr s r).playback_step = s.playback_step := by
  cases r with
  | ok s2 => exact h s2 rfl
  | error e => rfl

lemma iterate_run_channel_lengths (n : Nat) :
    ∀ s : SeqState, (iterate_run n s).channel_lengths = s.channel_lengths := by
  induction n with
  | zero => intro s; rfl
  | succ n ih => intro s; rw [iterate_run, ih]; rfl

lemma iterate_run_bounds (n : Nat) :
    ∀ s : SeqState, 0 < s.channel_lengths 0 → 0 ≤ s.playback_step →
      s.playback_step < s.channel_lengths 0 →
      0 ≤ (iterate_run n s).playback_step ∧
      (iterate_run n s).playback_step < s.channel_lengths 0 := by
  induction n with
  | zero => intro s h0 h1 h2; exact ⟨h1, h2⟩
  | succ n ih =>
    intro s h0 h1 h2
    rw [iterate_run]
    have hstep : (run_iteration s).1.playback_step =
        (s.playback_step + 1) % s.channel_lengths 0 := rfl
    have h1' : 0 ≤ (run_iteration s).1.playback_step := by
      rw [hstep]; exact Int.emod_nonneg _ (by omega)
    have h2' : (run_iteration s).1.playback_step <
        (run_iteration s).1.channel_lengths 0 := by
      rw [hstep]; exact Int.emod_lt_of_pos _ h0
    exact ih (run_iteration s).1 h0 h1' h2'

lemma iterate_run_cycle (n : Nat) :
    ∀ s : SeqState, s.channel_lengths 0 = 4 → 0 ≤ s.playback_step →
      s.playback_step < 4 →
      (iterate_run n s).playback_step = (s.playback_step + n) % 4 := by
  induction n with
  | zero => intro s hm hp hlt; rw [iterate_run]; omega
  | succ n ih =>
    intro s hm hp hlt
    rw [iterate_run]
    have hstep : (run_iteration s).1.playback_step =
        (s.playback_step + 1) % s.channel_lengths 0 := rfl
    rw [hm] at hstep
    have hm1 : (run_iteration s).1.channel_lengths 0 = 4 := hm
    rw [ih (run_iteration s).1 hm1 (by omega) (by omega), hstep]
    omega

/-- C3: every iteration of the playback loop advances
`playback_step = (playback_step + 1) % channel_lengths[0]`, using channel 0's
length whatever the patterns contain; consequently from any in-range state
the step stays in `[0, channel_lengths[0])` across any number of iterations,
and with `channel_lengths[0] = 4` and `playback_step = 0` it cycles
`0,1,2,3,0,…`, never exceeding 3. -/
theorem playback_wraparound (s : SeqState) (n : Nat) :
    (((run_iteration s).1).playback_step =
      (s.playback_step + 1) % s.channel_lengths 0) ∧
    (∀ p, ((run_iteration { s with patterns := p }).1).playback_step =
      ((run_iteration s).1).playback_step) ∧
    (0 < s.channel_lengths 0 → 0 ≤ s.playback_step →
      s.playback_step < s.channel_lengths 0 →
      0 ≤ (iterate_run n s).playback_step ∧
      (iterate_run n s).playback_step < s.channel_lengths 0) ∧
    (s.channel_lengths 0 = 4 → s.playback_step = 0 →
      (iterate_run n s).playback_step = (n : Int) % 4 ∧
      (iterate_run n s).playback_step ≤ 3) := by
  refine ⟨rfl, fun p => rfl, iterate_run_bounds n s, fun hm hp => ?_⟩
  have h := iterate_run_cycle n s hm (by omega) (by omega)
  rw [hp] at h
  constructor
  · omega
  · rw [h]; omega

/-- Witness for C3 at a concrete reachable state: channel 0 shortened to 4
steps, 6 loop iterations land on step 2 and stay below 4. -/
theorem playback_wraparound_witness :
    (c3_state.channel_lengths 0 = 4 ∧ c3_state.playback_step = 0) ∧
    (iterate_run 6 c3_state).playback_step = (6 : Int) % 4 ∧
    (iterate_run 6 c3_state).playback_step ≤ 3 := by
  refine ⟨⟨by decide, by decide⟩, ?_⟩
  exact (playback_wraparound c3_state 6).2.2.2 (by decide) (by decide)

/-- C4: for `bpm > 0`, `set_bpm` recomputes
`step_duration = 60 / (bpm * (steps_per_bar / 4))`; with `bpm = 120` and
`steps_per_bar = 16` the result is `0.125 = 1/8` seconds; for `bpm ≤ 0` it
raises and leaves the state (in particular `bpm` and `step_time`)
unchanged. -/
theorem set_bpm_spec (s : SeqState) (bpm : ℚ) :
    (0 < bpm →
      set_bpm s bpm =
        .ok { s with bpm := bpm
                     step_time := 60 / (bpm * ((s.steps_per_bar : ℚ) / 4)) }) ∧
    (bpm ≤ 0 →
      set_bpm s bpm = .error (.valueError "BPM must be greater than 0") ∧
      runOr s (set_bpm s bpm) = s) ∧
    (∃ s2, set_bpm (seq_init 120 16 64) 120 = .ok s2 ∧ s2.step_time = 1 / 8) := by
  refine ⟨fun h => ?_, fun h => ?_, ?_⟩
  · rw [set_bpm, if_neg (not_le.mpr h)]
  · have he : set_bpm s bpm = .error (.valueError "BPM must be greater than 0") := by
      rw [set_bpm, if_pos h]
    exact ⟨he, by rw [runOr.eq_def, he]⟩
  · refine ⟨_, by rw [set_bpm, if_neg (by norm_num)], ?_⟩
    show (60 : ℚ) / (120 * (((seq_init 120 16 64).steps_per_bar : ℚ) / 4)) = 1 / 8
    norm_num [seq_init]

/-- Witness for C4 at `bpm = 120` (success) and `bpm = 0` (failure). -/
theorem set_bpm_spec_witness :
    (∃ s2, set_bpm (seq_init 120 16 64) 120 = .ok s2 ∧ s2.step_time = 1 / 8) ∧
    ((0 : ℚ) ≤ 0 ∧
      set_bpm (seq_init 120 16 64) 0 =
        .error (.valueError "BPM must be greater than 0") ∧
      runOr (seq_init 120 16 64) (set_bpm (seq_init 120 16 64) 0) =
        seq_init 120 16 64) :=
  ⟨(set_bpm_spec (seq_init 120 16 64) 120).2.2,
   le_refl 0, (set_bpm_spec (seq_init 120 16 64) 0).2.1 (le_refl 0)⟩

/-- C2: `set_channel_steps(channel, L)` with `L ∈ [1, max_steps]` preserves
every slot below `L`, resets every slot from `L` up to the default, so
`get_step` at any index `≥ L` yields the default afterwards; an `L` outside
`[1, max_steps]` raises `ValueError`. -/
theorem set_channel_length_spec (s : SeqState) (channel L : Int)
    (hc : 0 ≤ channel ∧ channel ≤ 15) :
    (1 ≤ L ∧ L ≤ s.max_steps →
      ∃ s2, set_channel_steps s channel L = .ok s2 ∧
        s2.channel_lengths channel = L ∧
        s2.max_steps = s.max_steps ∧
        (∀ i, i < L → s2.patterns channel i = s.patterns channel i) ∧
        (∀ i, L ≤ i → s2.patterns channel i = defaultStep) ∧
        (∀ i, L ≤ i → i < s.max_steps → get_step s2 channel i = .ok defaultStep)) ∧
    (¬ (1 ≤ L ∧ L ≤ s.max_steps) →
      set_channel_steps s channel L =
        .error (.valueError "Steps must be between 1 and max_steps")) := by
  constructor
  · intro hL
    rw [set_channel_steps, if_neg (not_not_intro hc), if_neg (not_not_intro hL)]
    refine ⟨_, rfl, by simp, rfl, fun i hi => by simp [hi], fun i hi => by
      simp [not_lt.mpr hi], fun i hi1 hi2 => ?_⟩
    rw [get_step, if_neg (not_not_intro hc), if_neg (not_not_intro ⟨by omega, hi2⟩)]
    simp [not_lt.mpr hi1]
  · intro hL
    rw [set_channel_steps, if_neg (not_not_intro hc), if_pos hL]

/-- Witness for C2: a pattern with an active slot at index 5 of channel 0,
shortened to 4 steps. -/
theorem set_channel_length_spec_witness :
    ((0 : Int) ≤ 0 ∧ (0 : Int) ≤ 15) ∧ (1 ≤ (4 : Int) ∧ 4 ≤ c2_state.max_steps) ∧
    (∃ s2, set_channel_steps c2_state 0 4 = .ok s2 ∧
      s2.channel_lengths 0 = 4 ∧
      s2.max_steps = c2_state.max_steps ∧
      (∀ i, i < 4 → s2.patterns 0 i = c2_state.patterns 0 i) ∧
      (∀ i, 4 ≤ i → s2.patterns 0 i = defaultStep) ∧
      (∀ i, 4 ≤ i → i < c2_state.max_steps →
        get_step s2 0 i = .ok defaultStep)) :=
  ⟨⟨by decide, by decide⟩, ⟨by decide, by decide⟩,
   (set_channel_length_spec c2_state 0 4 ⟨by decide, by decide⟩).1
     ⟨by decide, by decide⟩⟩

/-- C10: construction sets `playback_step = 0`; `stop()` and `start()` leave
it untouched (so a restart resumes from the retained step, and the first
iteration after the restart plays exactly that step's batch); none of the
editing or tempo operations reset it either. -/
theorem stop_retains_playback_step :
    (∀ bpm spb ms, (seq_init bpm spb ms).playback_step = 0) ∧
    (∀ s, (seq_stop s).playback_step = s.playback_step) ∧
    (∀ s, (seq_start s).playback_step = s.playback_step) ∧
    (∀ s, (seq_start (seq_stop s)).playback_step = s.playback_step ∧
      (run_iteration (seq_start (seq_stop s))).2 =
        play_step_list s s.playback_step) ∧
    (∀ s c st a n v,
      (runOr s (set_step s c st a n v)).playback_step = s.playback_step) ∧
    (∀ s c L, (runOr s (set_channel_steps s c L)).playback_step =
      s.playback_step) ∧
    (∀ s c, (runOr s (clear_channel s c)).playback_step = s.playback_step) ∧
    (∀ s b, (runOr s (set_bpm s b)).playback_step = s.playback_step) := by
  refine ⟨fun _ _ _ => rfl, fun s => rfl, fun s => ?_, fun s => ⟨rfl, rfl⟩,
    fun s c st a n v => ?_, fun s c L => ?_, fun s c => ?_, fun s b => ?_⟩
  · rw [seq_start]; split <;> rfl
  · refine runOr_playback _ _ (fun s2 h => ?_)
    unfold set_step at h; repeat' split at h
    all_goals injection h
    all_goals rename_i h2
    all_goals subst h2
    all_goals rfl
  · refine runOr_playback _ _ (fun s2 h => ?_)
    unfold set_channel_steps at h; repeat' split at h
    all_goals injection h
    all_goals rename_i h2
    all_goals subst h2
    all_goals rfl
  · refine runOr_playback _ _ (fun s2 h => ?_)
    unfold clear_channel at h; repeat' split at h
    all_goals injection h
    all_goals rename_i h2
    all_goals subst h2
    all_goals rfl
  · refine runOr_playback _ _ (fun s2 h => ?_)
    unfold set_bpm at h; repeat' split at h
    all_goals injection h
    all_goals rename_i h2
    all_goals subst h2
    all_goals rfl

/-- C1: for every in-range channel, step, flag, note and velocity,
`get_step` after `set_step` returns a dict holding exactly the values set,
and that dict is a fresh copy, never the stored object: mutating the
returned dict leaves the stored slot unchanged. -/
theorem set_get_roundtrip_copy (p : PatternsH) (channel step : Int)
    (active : Bool) (note : Option Int) (velocity : Int)
    (hc : 0 ≤ channel ∧ channel ≤ 15) (hs : 0 ≤ step ∧ step < p.max_steps)
    (hn : ∀ n ∈ note, 0 ≤ n ∧ n ≤ 127) (hv : 0 ≤ velocity ∧ velocity ≤ 127) :
    ∃ p1 a p2, set_step_h p channel step active note velocity = .ok p1 ∧
      get_step_h p1 channel step = .ok (a, p2) ∧
      p2.heap.data a = ⟨active, note, velocity⟩ ∧
      a ≠ p2.slot channel step ∧
      ∀ v, (mutate_dict p2 a v).heap.data
          ((mutate_dict p2 a v).slot channel step) = ⟨active, note, velocity⟩ := by
  set p1 : PatternsH :=
    { p with
      slot := fun c st => if c = channel ∧ st = step then p.heap.next else p.slot c st
      heap := { data := fun x => if x = p.heap.next then ⟨active, note, velocity⟩
                  else p.heap.data x
                next := p.heap.next + 1 } } with hp1
  refine ⟨p1, p1.heap.next,
    { p1 with heap := { data := fun x =>
                          if x = p1.heap.next then p1.heap.data (p1.slot channel step)
                          else p1.heap.data x
                        next := p1.heap.next + 1 } }, ?_, ?_, ?_, ?_, ?_⟩
  · rw [set_step_h, if_neg (not_not_intro hc), if_neg (not_not_intro hs),
      if_neg (not_not_intro hn), if_neg (not_not_intro hv)]
  · rw [get_step_h, if_neg (not_not_intro hc), if_neg (not_not_intro hs)]
  · show (if p1.heap.next = p1.heap.next then p1.heap.data (p1.slot channel step)
      else p1.heap.data p1.heap.next) = ⟨active, note, velocity⟩
    rw [if_pos rfl, hp1]
    simp
  · show p1.heap.next ≠ (if channel = channel ∧ step = step then p.heap.next
      else p.slot channel step)
    rw [if_pos ⟨rfl, rfl⟩, hp1]
    simp
  · intro v
    show (fun x => if x = p1.heap.next then v
        else if x = p1.heap.next then p1.heap.data (p1.slot channel step)
        else p1.heap.data x)
      (if channel = channel ∧ step = step then p.heap.next else p.slot channel step) =
      ⟨active, note, velocity⟩
    rw [if_pos ⟨rfl, rfl⟩, hp1]
    simp

/-- Witness for C1 on the freshly constructed pattern store, channel 0,
step 0, an active step with note 60 and velocity 100. -/
theorem set_get_roundtrip_copy_witness :
    ((0 : Int) ≤ 0 ∧ (0 : Int) ≤ 15) ∧
    ((0 : Int) ≤ 0 ∧ 0 < (init_patterns_h 64).max_steps) ∧
    (∃ p1 a p2, set_step_h (init_patterns_h 64) 0 0 true (some 60) 100 = .ok p1 ∧
      get_step_h p1 0 0 = .ok (a, p2) ∧
      p2.heap.data a = ⟨true, some 60, 100⟩ ∧
      a ≠ p2.slot 0 0 ∧
      ∀ v, (mutate_dict p2 a v).heap.data
          ((mutate_dict p2 a v).slot 0 0) = ⟨true, some 60, 100⟩) :=
  ⟨⟨by decide, by decide⟩, ⟨by decide, by decide⟩,
   set_get_roundtrip_copy (init_patterns_h 64) 0 0 true (some 60) 100
     ⟨by decide, by decide⟩ ⟨by decide, by decide⟩
     (by intro n hn; simp only [Option.mem_def, Option.some.injEq] at hn
         subst hn; decide)
     ⟨by decide, by decide⟩⟩

lemma apply_loop_pos_draws (channel : Int) (scale : Scale) (oc : ℚ) :
    ∀ (steps : List Int) (s : SeqState) (octv : Int) (r : Rng),
      (∀ i, 0 < r.floats i) →
      ∃ r2, apply_loop channel scale 0 oc steps s octv r = .ok (s, octv, r2) := by
  intro steps
  induction steps with
  | nil => intro s octv r hpos; exact ⟨r, by rw [apply_loop]⟩
  | cons a rest ih =>
    intro s octv r hpos
    have hx : ¬ ((rand_random r).1 ≤ 0) := not_le.mpr (hpos r.fpos)
    simp only [apply_loop, if_neg hx]
    exact ih s octv (rand_random r).2 (fun i => hpos i)

/-- C5 (amended): `apply_random_pattern_from_scale` with `note_chance = 0.0`
leaves the channel all-default provided every `random.random()` draw is
strictly positive; the success test of the source is `draw <= note_chance`,
so a draw of exactly 0.0 — which `random.random()` can return — does write an
active step (see the counterexample). -/
theorem apply_random_zero_chance (s : SeqState) (channel : Int) (scale : Scale)
    (oc : ℚ) (r : Rng) (hc : 0 ≤ channel ∧ channel ≤ 15)
    (hscale : scale_keys scale ≠ []) (hpos : ∀ i, 0 < r.floats i) :
    ∃ s2 r2, apply_random_pattern_from_scale s channel scale 0 oc r =
        .ok (s2, r2) ∧
      (∀ st, s2.patterns channel st = defaultStep) ∧
      (∀ st, 0 ≤ st → st < s.max_steps →
        get_step s2 channel st = .ok defaultStep) := by
  have hclear : clear_channel s channel = .ok
      { s with patterns := fun c st =>
          if c = channel then defaultStep else s.patterns c st } := by
    rw [clear_channel, if_neg (not_not_intro hc)]
  obtain ⟨k, hk⟩ : ∃ k, scale_min_key scale = .ok k := by
    rw [scale_min_key.eq_def]
    cases hsk : scale_keys scale with
    | nil => exact absurd hsk hscale
    | cons a l => exact ⟨_, rfl⟩
  obtain ⟨r2, hloop⟩ := apply_loop_pos_draws channel scale oc
    (int_range (s.channel_lengths channel))
    { s with patterns := fun c st =>
        if c = channel then defaultStep else s.patterns c st } k r hpos
  refine ⟨{ s with patterns := fun c st =>
      if c = channel then defaultStep else s.patterns c st }, r2, ?_, ?_, ?_⟩
  · simp only [apply_random_pattern_from_scale, hclear, hk, hloop]
  · intro st; simp
  · intro st h1 h2
    rw [get_step, if_neg (not_not_intro hc), if_neg (not_not_intro ⟨h1, h2⟩)]
    simp

/-- Counterexample for C5: with `note_chance = 0.0`, `octave_chance = 0.5`
and a draw sequence whose first `random.random()` value is exactly 0.0, the
source's `random.random() <= note_chance` test succeeds and step 0 of
channel 0 is written active (note 60, velocity 80) instead of staying at the
cleared default — so the claim's "for every sequence of random draws … no
draw succeeds" is false on the code. -/
theorem apply_random_zero_chance_counterexample :
    (match apply_random_pattern_from_scale (seq_init 120 16 64) 0 c5_scale 0
        (mkRat 1 2) c5_rng with
     | .ok (s2, _) => s2.patterns 0 0
     | .error _ => defaultStep) = ⟨true, some 60, 80⟩ ∧
    (⟨true, some 60, 80⟩ : Step) ≠ defaultStep ∧
    ((0 : ℚ) ≤ 0 ∧ c5_rng.floats 0 = 0) := by
  refine ⟨by decide, by decide, le_refl 0, by decide⟩

/-- Witness for the amended C5: all draws 0.5 leave channel 0 all-default. -/
theorem apply_random_zero_chance_witness :
    ((0 : Int) ≤ 0 ∧ (0 : Int) ≤ 15) ∧ scale_keys c5_scale ≠ [] ∧
    (∃ s2 r2, apply_random_pattern_from_scale (seq_init 120 16 64) 0 c5_scale 0
        (mkRat 1 2) c5_rng_pos = .ok (s2, r2) ∧
      (∀ st, s2.patterns 0 st = defaultStep) ∧
      (∀ st, 0 ≤ st → st < (seq_init 120 16 64).max_steps →
        get_step s2 0 st = .ok defaultStep)) :=
  ⟨⟨by decide, by decide⟩, by decide,
   apply_random_zero_chance (seq_init 120 16 64) 0 c5_scale (mkRat 1 2) c5_rng_pos
     ⟨by decide, by decide⟩ (by decide) (fun i => by show (0:ℚ) < mkRat 1 2; decide)⟩

lemma mainStep_frozen (s : SeqSys) (h : s.running = false) :
    (mainStep s).running = false ∧ (mainStep s).batches = s.batches := by
  unfold mainStep
  split
  · exact ⟨rfl, rfl⟩
  · split
    · exact ⟨h, rfl⟩
    · exact ⟨h, rfl⟩
  · exact ⟨h, rfl⟩

lemma loopStep_frozen (s : SeqSys) (h : s.running = false) :
    (loopStep s).running = false ∧ (loopStep s).batches = s.batches := by
  unfold loopStep
  rw [h]
  simp only [Bool.false_eq_true, if_false]
  split
  · exact ⟨rfl, rfl⟩
  · exact ⟨h, rfl⟩

lemma exec_stopped : ∀ (sched : List Bool) (s : SeqSys), s.running = false →
    (exec sched s).batches = s.batches ∧ (exec sched s).running = false := by
  intro sched
  induction sched with
  | nil => intro s h; exact ⟨rfl, h⟩
  | cons b rest ih =>
    intro s h
    cases b
    · have h2 := mainStep_frozen s h
      have h3 := ih (mainStep s) h2.1
      exact ⟨h3.1.trans h2.2, h3.2⟩
    · have h2 := loopStep_frozen s h
      have h3 := ih (loopStep s) h2.1
      exact ⟨h3.1.trans h2.2, h3.2⟩

lemma exec_fixpoint : ∀ (sched : List Bool) (s : SeqSys), s.running = false →
    s.loopActive = false → s.mainPhase = 2 → exec sched s = s := by
  intro sched
  induction sched with
  | nil => intro s _ _ _; rfl
  | cons b rest ih =>
    intro s h1 h2 h3
    cases b
    · have hm : mainStep s = s := by
        unfold mainStep
        split
        · omega
        · omega
        · rfl
      show exec rest (mainStep s) = s
      rw [hm]
      exact ih s h1 h2 h3
    · have hl : loopStep s = s := by
        unfold loopStep
        rw [h2]
        rfl
      show exec rest (loopStep s) = s
      rw [hl]
      exact ih s h1 h2 h3

lemma mainStep_inv (s : SeqSys) (h1 : s.mainPhase ≠ 0 → s.running = false)
    (h2 : s.mainPhase = 2 → s.loopActive = false) :
    ((mainStep s).mainPhase ≠ 0 → (mainStep s).running = false) ∧
    ((mainStep s).mainPhase = 2 → (mainStep s).loopActive = false) := by
  unfold mainStep
  split
  · refine ⟨fun _ => rfl, fun hc => ?_⟩
    have hc2 : (1 : Nat) = 2 := hc
    omega
  · split
    · exact ⟨h1, h2⟩
    · rename_i hph hla
      refine ⟨fun _ => h1 (by omega), fun _ => ?_⟩
      show s.loopActive = false
      simpa using hla
  · exact ⟨h1, h2⟩

lemma loopStep_inv (s : SeqSys) (h1 : s.mainPhase ≠ 0 → s.running = false)
    (h2 : s.mainPhase = 2 → s.loopActive = false) :
    ((loopStep s).mainPhase ≠ 0 → (loopStep s).running = false) ∧
    ((loopStep s).mainPhase = 2 → (loopStep s).loopActive = false) := by
  unfold loopStep
  split
  · split
    · rename_i hla hr
      refine ⟨h1, fun hph => ?_⟩
      have hph2 : s.mainPhase = 2 := hph
      have := h1 (by omega)
      rw [hr] at this
      exact absurd this (by simp)
    · exact ⟨h1, fun _ => rfl⟩
  · exact ⟨h1, h2⟩

lemma exec_inv : ∀ (sched : List Bool) (s : SeqSys),
    (s.mainPhase ≠ 0 → s.running = false) →
    (s.mainPhase = 2 → s.loopActive = false) →
    ((exec sched s).mainPhase ≠ 0 → (exec sched s).running = false) ∧
    ((exec sched s).mainPhase = 2 → (exec sched s).loopActive = false) := by
  intro sched
  induction sched with
  | nil => intro s h1 h2; exact ⟨h1, h2⟩
  | cons b rest ih =>
    intro s h1 h2
    cases b
    · have h3 := mainStep_inv s h1 h2
      exact ih (mainStep s) h3.1 h3.2
    · have h3 := loopStep_inv s h1 h2
      exact ih (loopStep s) h3.1 h3.2

/-- C6: in the interleaved semantics of `stop()` against the `_run` loop,
once `stop()` has returned the loop thread has exited and the whole system is
inert — no further note batch can ever be emitted under any continuation
schedule (join semantics); and when the stop is immediate — the caller's
`self.running = False` write is scheduled before the loop performs its second
flag check — at most one note batch is emitted in the whole run. -/
theorem stop_join_batches (sched sched2 : List Bool) :
    ((exec sched startState).mainPhase = 2 →
      (exec sched startState).loopActive = false ∧
      (exec sched startState).running = false ∧
      exec sched2 (exec sched startState) = exec sched startState) ∧
    ((sched.takeWhile (fun b => b)).length ≤ 1 →
      (exec sched startState).batches ≤ 1) := by
  constructor
  · intro hph
    have hInv := exec_inv sched startState
      (fun h => absurd rfl h) (fun h => absurd h (by decide))
    have hla := hInv.2 hph
    have hr := hInv.1 (by rw [hph]; omega)
    exact ⟨hla, hr, exec_fixpoint sched2 _ hr hla hph⟩
  · intro hlen
    cases sched with
    | nil => decide
    | cons b rest =>
      cases b
      · have h2 := exec_stopped rest (mainStep startState) rfl
        show (exec rest (mainStep startState)).batches ≤ 1
        rw [h2.1]
        decide
      · cases rest with
        | nil => decide
        | cons b2 rest2 =>
          cases b2
          · have h2 := exec_stopped rest2 (mainStep (loopStep startState))
              (by decide)
            show (exec rest2 (mainStep (loopStep startState))).batches ≤ 1
            rw [h2.1]
            decide
          · exfalso
            simp [List.takeWhile] at hlen

/-- Witness for C6: a schedule performing one loop iteration, the flag write,
the loop's exiting check and the join, followed by a continuation schedule
that changes nothing. -/
theorem stop_join_batches_witness :
    ((exec [true, false, true, false] startState).mainPhase = 2 ∧
      (List.takeWhile (fun b => b) [true, false, true, false]).length ≤ 1) ∧
    ((exec [true, false, true, false] startState).loopActive = false ∧
      (exec [true, false, true, false] startState).running = false ∧
      exec [true, true, false] (exec [true, false, true, false] startState) =
        exec [true, false, true, false] startState) ∧
    (exec [true, false, true, false] startState).batches ≤ 1 :=
  ⟨⟨by decide, by decide⟩,
   (stop_join_batches [true, false, true, false] [true, true, false]).1 (by decide),
   (stop_join_batches [true, false, true, false] [true, true, false]).2 (by decide)⟩

lemma clock_start_running (s : ClockState) : (clock_start s).running = true := by
  simp only [clock_start]
  split
  · rename_i h; exact h
  · split
    · rfl
    · split <;> rfl

lemma clock_pulse_running (s : ClockState) (now : ℚ) :
    (clock_handle_pulse s now).running = s.running := by
  simp only [clock_handle_pulse, clock_handle_beat]
  repeat' split
  all_goals rfl

lemma clock_stop_running (s : ClockState) : (clock_stop s).running = false := by
  unfold clock_stop
  split
  · rename_i h; simpa using h
  · rfl

lemma clock_stop_of_stopped (s : ClockState) (h : s.running = false) :
    clock_stop s = s := by
  rw [clock_stop, if_pos (by simp [h])]

lemma clock_set_master_eq (s : ClockState) (b : Bool) :
    clock_set_master s b =
      if s.is_master = b then s
      else if s.running = true then
        clock_start { clock_stop s with is_master := b }
      else { s with is_master := b } := by
  by_cases hm : s.is_master = b
  · simp [clock_set_master, hm]
  · by_cases hr : s.running = true
    · simp [clock_set_master, hm, hr]
    · simp [clock_set_master, hm, hr]

lemma clock_set_sync_source_eq (s : ClockState) (inputs : List String)
    (port_name : String) :
    clock_set_sync_source s inputs port_name =
      if port_name ∉ inputs then (false, s)
      else if s.running = true ∧ s.is_master = false then
        (true, clock_start (clock_stop { s with sync_source := some port_name }))
      else (true, { s with sync_source := some port_name }) := by
  by_cases hmem : port_name ∉ inputs
  · simp [clock_set_sync_source, hmem]
  · by_cases hc : s.running = true ∧ s.is_master = false
    · simp [clock_set_sync_source, hmem, hc]
    · simp only [clock_set_sync_source, if_neg hmem]

lemma clock_reachable_stopped_zero {s : ClockState} (h : ClockReachable s) :
    s.running = false →
    s.pulse_count = 0 ∧ s.current_beat = 0 ∧ s.current_bar = 0 := by
  induction h with
  | init => intro _; exact ⟨rfl, rfl, rfl⟩
  | start h ih =>
    intro hr
    rw [clock_start_running] at hr
    simp at hr
  | stop h ih =>
    intro _
    unfold clock_stop
    split
    · rename_i hnr; exact ih (by simpa using hnr)
    · exact ⟨rfl, rfl, rfl⟩
  | pulse now h hr ih =>
    intro hrf
    rw [clock_pulse_running, hr] at hrf
    simp at hrf
  | msg_start h ih =>
    unfold clock_msg_start
    split
    · exact ih
    · intro _; exact ⟨rfl, rfl, rfl⟩
  | set_tempo bpm h ih =>
    unfold clock_set_tempo
    split
    · exact ih
    · exact ih
  | set_master b h ih =>
    rw [clock_set_master_eq]
    split
    · exact ih
    · split
      · intro hr
        rw [clock_start_running] at hr
        simp at hr
      · rename_i hnr
        intro _
        exact ih (by simpa using hnr)
  | set_sync inputs p h ih =>
    rw [clock_set_sync_source_eq]
    split
    · exact ih
    · split
      · intro hr
        rw [clock_start_running] at hr
        simp at hr
      · intro hr
        exact ih hr

/-- C7: from every reachable clock state, `stop()` leaves the pulse, beat and
bar counters at zero — including a `stop()` issued while already stopped,
which returns early but finds the counters already zero; teardown is
idempotent and a no-op from the stopped state. -/
theorem clock_stop_spec (s : ClockState) (h : ClockReachable s) :
    (clock_stop s).pulse_count = 0 ∧ (clock_stop s).current_beat = 0 ∧
    (clock_stop s).current_bar = 0 ∧
    clock_stop (clock_stop s) = clock_stop s ∧
    (s.running = false → clock_stop s = s) := by
  have hz := clock_reachable_stopped_zero h
  have hidem : clock_stop (clock_stop s) = clock_stop s :=
    clock_stop_of_stopped _ (clock_stop_running s)
  by_cases hr : s.running = true
  · have he : clock_stop s =
        { s with running := false
                 has_thread := false
                 pulse_count := 0
                 current_beat := 0
                 current_bar := 0 } := by
      rw [clock_stop, if_neg (by simp [hr])]
    exact ⟨by rw [he], by rw [he], by rw [he], hidem,
      fun hf => absurd hr (by simp [hf])⟩
  · have hr2 : s.running = false := by simpa using hr
    have he := clock_stop_of_stopped s hr2
    obtain ⟨z1, z2, z3⟩ := hz hr2
    exact ⟨by rw [he]; exact z1, by rw [he]; exact z2, by rw [he]; exact z3,
      hidem, fun _ => he⟩

/-- Witness for C7 at a reachable state: master clock started and having
handled one pulse. -/
theorem clock_stop_spec_witness :
    (clock_stop c7_state).pulse_count = 0 ∧
    (clock_stop c7_state).current_beat = 0 ∧
    (clock_stop c7_state).current_bar = 0 ∧
    clock_stop (clock_stop c7_state) = clock_stop c7_state ∧
    (c7_state.running = false → clock_stop c7_state = c7_state) :=
  clock_stop_spec c7_state
    (ClockReachable.pulse 1 (ClockReachable.start ClockReachable.init)
      (clock_start_running clock_init))

/-- C8: `set_sync_source` returns `False` (the spec's `NotFound` failure) and
leaves the clock — including the stored sync source — untouched when the port
is not among the available MIDI inputs; when the port exists it returns
`True`, and the new source reaches an active slave loop only through a
stop+restart, which `set_sync_source` performs itself exactly when a slave
loop is running — otherwise only the stored field changes and the active
listener is unaffected. -/
theorem set_sync_source_spec (s : ClockState) (inputs : List String)
    (port : String) :
    (port ∉ inputs → clock_set_sync_source s inputs port = (false, s)) ∧
    (port ∈ inputs →
      (clock_set_sync_source s inputs port).1 = true ∧
      (¬ (s.running = true ∧ s.is_master = false) →
        (clock_set_sync_source s inputs port).2 =
          { s with sync_source := some port } ∧
        ((clock_set_sync_source s inputs port).2).active_listener =
          s.active_listener ∧
        ((clock_set_sync_source s inputs port).2).running = s.running) ∧
      (s.running = true → s.is_master = false →
        (clock_set_sync_source s inputs port).2 =
          clock_start (clock_stop { s with sync_source := some port }) ∧
        ((clock_set_sync_source s inputs port).2).active_listener =
          some port)) := by
  constructor
  · intro h
    rw [clock_set_sync_source_eq, if_pos h]
  · intro h
    rw [clock_set_sync_source_eq, if_neg (not_not_intro h)]
    refine ⟨?_, ?_, ?_⟩
    · split <;> rfl
    · intro hn
      rw [if_neg hn]
      exact ⟨rfl, rfl, rfl⟩
    · intro h1 h2
      rw [if_pos ⟨h1, h2⟩]
      refine ⟨rfl, ?_⟩
      have hs : clock_stop { s with sync_source := some port } =
          { s with sync_source := some port
                   running := false
                   has_thread := false
                   pulse_count := 0
                   current_beat := 0
                   current_bar := 0 } := by
        rw [clock_stop, if_neg (by simp [h1])]
      show (clock_start (clock_stop { s with sync_source := some port })).active_listener =
        some port
      rw [hs]
      simp [clock_start, h2]

/-- Witness for C8 on a running slave clock: a missing port is rejected with
the state unchanged, an available port is accepted and the restarted loop
listens on it. -/
theorem set_sync_source_spec_witness :
    ("portB" ∉ ["portA"] ∧
      clock_set_sync_source c8_state ["portA"] "portB" = (false, c8_state)) ∧
    ("portA" ∈ ["portA"] ∧
      (clock_set_sync_source c8_state ["portA"] "portA").1 = true ∧
      ((clock_set_sync_source c8_state ["portA"] "portA").2).active_listener =
        some "portA") := by
  refine ⟨⟨by decide, (set_sync_source_spec c8_state ["portA"] "portB").1
      (by decide)⟩, by decide, ?_, ?_⟩
  · exact ((set_sync_source_spec c8_state ["portA"] "portA").2 (by decide)).1
  · exact (((set_sync_source_spec c8_state ["portA"] "portA").2 (by decide)).2.2
      rfl rfl).2

lemma foldl_min_le (k : Int) (ks : List Int) :
    ∀ x ∈ k :: ks, List.foldl min k ks ≤ x := by
  induction ks generalizing k with
  | nil =>
    intro x hx
    rw [List.mem_singleton] at hx
    subst hx
    exact le_refl _
  | cons a ks ih =>
    intro x hx
    have hbase : List.foldl min (min k a) ks ≤ min k a :=
      ih (min k a) (min k a) (List.mem_cons_self _ _)
    rcases List.mem_cons.mp hx with rfl | hx2
    · exact le_trans hbase (min_le_left _ _)
    · rcases List.mem_cons.mp hx2 with rfl | hx3
      · exact le_trans hbase (min_le_right _ _)
      · exact ih (min k a) x (List.mem_cons_of_mem _ hx3)

lemma foldl_min_mem (k : Int) (ks : List Int) :
    List.foldl min k ks ∈ k :: ks := by
  induction ks generalizing k with
  | nil => exact List.mem_singleton.mpr rfl
  | cons a ks ih =>
    have h := ih (min k a)
    rcases List.mem_cons.mp h with heq | hmem
    · show List.foldl min (min k a) ks ∈ k :: a :: ks
      rw [heq]
      rcases min_choice k a with h1 | h1 <;> rw [h1]
      · exact List.mem_cons_self _ _
      · exact List.mem_cons_of_mem _ (List.mem_cons_self _ _)
    · exact List.mem_cons_of_mem _ (List.mem_cons_of_mem _ hmem)

/-- C9 (amended): `start_scale_playback` snapshots the scale, sets the
current octave to the lowest octave key present and raises the flag; every
note emitted by a scale-playback iteration carries velocity uniform in
[70,100] and duration `step_time * 0.9`, but it is sent on the MIDI device's
currently selected channel at send time (`self.midi_device.channel`,
sequencer.py line 176) — the `channel` argument captured at start is ignored
(see the counterexample). -/
theorem scale_playback_channel (s : SeqState) (scale : Scale)
    (note_chance octave_chance : ℚ) (captured device : Int) (r : Rng) :
    (scale_keys scale ≠ [] →
      (start_scale_playback s scale note_chance octave_chance captured).2 =
        none ∧
      (start_scale_playback s scale note_chance octave_chance
        captured).1.current_scale = some scale ∧
      (start_scale_playback s scale note_chance octave_chance
        captured).1.scale_playback = true ∧
      (start_scale_playback s scale note_chance octave_chance
        captured).1.current_octave ∈ scale_keys scale ∧
      (∀ x ∈ scale_keys scale,
        (start_scale_playback s scale note_chance octave_chance
          captured).1.current_octave ≤ x)) ∧
    (∀ s2 r2 ev,
      play_random_scale_iter s note_chance octave_chance captured device r =
        .ok (s2, r2, some ev) →
      ev.channel = device ∧ 70 ≤ ev.velocity ∧ ev.velocity ≤ 100 ∧
      ev.duration = s.step_time * (9 / 10)) := by
  constructor
  · intro hne
    cases hsk : scale_keys scale with
    | nil => exact absurd hsk hne
    | cons k ks =>
      have hmin : scale_min_key scale = .ok (ks.foldl min k) := by
        rw [scale_min_key.eq_def, hsk]
      simp only [start_scale_playback, hmin]
      refine ⟨trivial, trivial, trivial, ?_, ?_⟩
      · exact foldl_min_mem k ks
      · intro x hx
        exact foldl_min_le k ks x hx
  · intro s2 r2 ev h
    simp only [play_random_scale_iter] at h
    repeat' split at h
    all_goals try (exfalso; revert h; simp; done)
    simp only [Except.ok.injEq, Prod.mk.injEq, Option.some.injEq] at h
    obtain ⟨-, -, h3⟩ := h
    subst h3
    refine ⟨rfl, ?_, ?_, rfl⟩
    · show (70 : Int) ≤ (rand_randint 70 100 _).1
      simp only [rand_randint]
      have h31 : ((100 : Int) - 70 + 1).toNat = 31 := by decide
      rw [h31]
      omega
    · show (rand_randint 70 100 _).1 ≤ 100
      simp only [rand_randint]
      have h31 : ((100 : Int) - 70 + 1).toNat = 31 := by decide
      rw [h31]
      omega

/-- Counterexample for C9: scale playback started with captured channel 0,
then the controller selects device channel 5; the next emitted note goes out
on channel 5, not on the captured channel 0 — the source passes
`channel=self.midi_device.channel` to `send_note`. -/
theorem scale_playback_channel_counterexample :
    (match play_random_scale_iter c9_state 1 0 0 c9_device.channel c5_rng with
     | .ok (_, _, some ev) => ev.channel
     | _ => 0) = 5 ∧ (5 : Int) ≠ 0 ∧ c9_device.channel = 5 := by
  exact ⟨by decide, by decide, by decide⟩

/-- Witness for C9: the startup facts at a concrete scale, and the emitted
note of a concrete iteration with the device on channel 5. -/
theorem scale_playback_channel_witness :
    scale_keys c5_scale ≠ [] ∧
    ((start_scale_playback (seq_init 120 16 64) c5_scale 1 0 0).2 = none ∧
      (start_scale_playback (seq_init 120 16 64) c5_scale 1 0
        0).1.current_scale = some c5_scale ∧
      (start_scale_playback (seq_init 120 16 64) c5_scale 1 0
        0).1.scale_playback = true ∧
      (start_scale_playback (seq_init 120 16 64) c5_scale 1 0
        0).1.current_octave ∈ scale_keys c5_scale ∧
      (∀ x ∈ scale_keys c5_scale,
        (start_scale_playback (seq_init 120 16 64) c5_scale 1 0
          0).1.current_octave ≤ x)) ∧
    ((⟨60, c9_state.step_time * (9 / 10), 5, 70⟩ : NoteEvent).channel = 5 ∧
      70 ≤ (⟨60, c9_state.step_time * (9 / 10), 5, 70⟩ : NoteEvent).velocity ∧
      (⟨60, c9_state.step_time * (9 / 10), 5, 70⟩ : NoteEvent).velocity ≤ 100 ∧
      (⟨60, c9_state.step_time * (9 / 10), 5, 70⟩ : NoteEvent).duration =
        c9_state.step_time * (9 / 10)) := by
  refine ⟨by decide,
    (scale_playback_channel (seq_init 120 16 64) c5_scale 1 0 0 5 c5_rng).1
      (by decide), ?_⟩
  exact (scale_playback_channel c9_state c5_scale 1 0 0 5 c5_rng).2
    c9_result.1 c9_result.2.1 ⟨60, c9_state.step_time * (9 / 10), 5, 70⟩ (by rfl)
